import Mathlib

/-!
Shallow embedding of the OpenStack provider services of the cloudbridge
provider-adapter layer (`cloudbridge/cloud/providers/openstack/services.py`)
and of the provider facade capability probe (`cloudbridge/providers/base.py`).
The backend clients (nova, cinder, swift, keystone) are external collaborators
and are modelled by their documented contracts; the resource wrapper classes
live in a module outside the embedded sources and are modelled from the spec's
data model (read-through wrappers exposing the raw record's identity).
-/

/-- Raw backend record: the `id` and `name` attributes the services consult. -/
structure OSRecord where
  id : String
  name : String
deriving DecidableEq, Repr

/-- Errors raised by the backend clients: novaclient's `NotFound`,
cinderclient's `NotFound`, and any other backend failure. -/
inductive BackendError where
  | novaNotFound
  | cinderNotFound
  | other (msg : String)
deriving DecidableEq, Repr

/-- Modelled from the spec: `OpenStackMachineImage` wrapper (read-through
wrapper from `resources.py`, not under the embedded sources; its id is the
raw record's id). -/
structure OpenStackMachineImage where
  raw : OSRecord
deriving DecidableEq, Repr

def OpenStackMachineImage.id (img : OpenStackMachineImage) : String := img.raw.id

/-- Modelled from the spec: `OpenStackVolume` wrapper. -/
structure OpenStackVolume where
  raw : OSRecord
deriving DecidableEq, Repr

def OpenStackVolume.id (v : OpenStackVolume) : String := v.raw.id

/-- Modelled from the spec: `OpenStackSnapshot` wrapper. -/
structure OpenStackSnapshot where
  raw : OSRecord
deriving DecidableEq, Repr

def OpenStackSnapshot.id (s : OpenStackSnapshot) : String := s.raw.id

/-- Modelled from the spec: `OpenStackInstance` wrapper. -/
structure OpenStackInstance where
  raw : OSRecord
deriving DecidableEq, Repr

def OpenStackInstance.id (i : OpenStackInstance) : String := i.raw.id

/-- Modelled from the spec: `OpenStackBucket` wrapper over a swift container;
a container is identified by its name. -/
structure OpenStackBucket where
  raw : OSRecord
deriving DecidableEq, Repr

def OpenStackBucket.id (b : OpenStackBucket) : String := b.raw.name

/-- Modelled from the spec: `OpenStackSecurityGroup` wrapper. -/
structure OpenStackSecurityGroup where
  raw : OSRecord
deriving DecidableEq, Repr

def OpenStackSecurityGroup.id (sg : OpenStackSecurityGroup) : String := sg.raw.id

def OpenStackSecurityGroup.name (sg : OpenStackSecurityGroup) : String := sg.raw.name

/-- Modelled from the spec: `OpenStackKeyPair` wrapper (key pairs are
identified by name). -/
structure OpenStackKeyPair where
  raw : OSRecord
deriving DecidableEq, Repr

def OpenStackKeyPair.name (kp : OpenStackKeyPair) : String := kp.raw.name

/-- Modelled from the spec: `OpenStackRegion` wrapper over a region
identifier taken from the service catalog. -/
structure OpenStackRegion where
  raw : String
deriving DecidableEq, Repr

def OpenStackRegion.id (r : OpenStackRegion) : String := r.raw

/-- Backend contract: nova `images.get(image_id)` returns the image with that
id or raises `NovaNotFound`. -/
def novaImagesGet (images : List OSRecord) (image_id : String) :
    Except BackendError OSRecord :=
  match images.find? (fun r => r.id == image_id) with
  | some r => Except.ok r
  | none => Except.error BackendError.novaNotFound

/-- Backend contract: nova `servers.get(instance_id)`. -/
def novaServersGet (servers : List OSRecord) (instance_id : String) :
    Except BackendError OSRecord :=
  match servers.find? (fun r => r.id == instance_id) with
  | some r => Except.ok r
  | none => Except.error BackendError.novaNotFound

/-- Backend contract: cinder `volumes.get(volume_id)` raises `CinderNotFound`
on a miss. -/
def cinderVolumesGet (volumes : List OSRecord) (volume_id : String) :
    Except BackendError OSRecord :=
  match volumes.find? (fun r => r.id == volume_id) with
  | some r => Except.ok r
  | none => Except.error BackendError.cinderNotFound

/-- Backend contract: cinder `volume_snapshots.get(snapshot_id)`. -/
def cinderSnapshotsGet (snaps : List OSRecord) (snapshot_id : String) :
    Except BackendError OSRecord :=
  match snaps.find? (fun r => r.id == snapshot_id) with
  | some r => Except.ok r
  | none => Except.error BackendError.cinderNotFound

/-- `OpenStackImageService.get`: wrap the nova call's outcome; the
`except NovaNotFound` clause converts that error to `None` and any other
backend failure propagates. -/
def OpenStackImageService.get (backendResult : Except BackendError OSRecord) :
    Except BackendError (Option OpenStackMachineImage) :=
  match backendResult with
  | Except.ok r => Except.ok (some ⟨r⟩)
  | Except.error BackendError.novaNotFound => Except.ok none
  | Except.error e => Except.error e

/-- `OpenStackVolumeService.get`: `except CinderNotFound` converts to `None`. -/
def OpenStackVolumeService.get (backendResult : Except BackendError OSRecord) :
    Except BackendError (Option OpenStackVolume) :=
  match backendResult with
  | Except.ok r => Except.ok (some ⟨r⟩)
  | Except.error BackendError.cinderNotFound => Except.ok none
  | Except.error e => Except.error e

/-- `OpenStackSnapshotService.get`: `except CinderNotFound` converts to `None`. -/
def OpenStackSnapshotService.get (backendResult : Except BackendError OSRecord) :
    Except BackendError (Option OpenStackSnapshot) :=
  match backendResult with
  | Except.ok r => Except.ok (some ⟨r⟩)
  | Except.error BackendError.cinderNotFound => Except.ok none
  | Except.error e => Except.error e

/-- `OpenStackInstanceService.get`: `except NovaNotFound` converts to `None`. -/
def OpenStackInstanceService.get (backendResult : Except BackendError OSRecord) :
    Except BackendError (Option OpenStackInstance) :=
  match backendResult with
  | Except.ok r => Except.ok (some ⟨r⟩)
  | Except.error BackendError.novaNotFound => Except.ok none
  | Except.error e => Except.error e

/-- Python `str.startswith`, computed over the characters of the strings. -/
def strStartsWith (s p : String) : Bool :=
  p.data.isPrefixOf s.data

/-- Backend contract: swift `get_account` with a name filter keeps the
containers whose name starts with the given string. -/
def swiftGetAccount (containers : List OSRecord) (pfx : String) :
    List OSRecord :=
  containers.filter (fun c => strStartsWith c.name pfx)

/-- `OpenStackObjectStoreService.get`: calls `swift.get_account` with the
requested bucket id as the name filter and wraps `container_list[0]` when the
result is non-empty, else returns `None`. -/
def OpenStackObjectStoreService.get (containers : List OSRecord)
    (bucket_id : String) : Option OpenStackBucket :=
  match swiftGetAccount containers bucket_id with
  | c :: _ => some ⟨c⟩
  | [] => none

/-- One endpoint of a keystone service-catalog entry: `endpoint.get('region')`
and `endpoint.get('region_id')` yield `None` for a missing key, modelled as
`Option String`. -/
structure OSEndpoint where
  region : Option String
  region_id : Option String
deriving DecidableEq, Repr

/-- One service of the keystone catalog; a missing `endpoints` key is the
empty list (`svc.get('endpoints', [])`). -/
structure OSService where
  endpoints : List OSEndpoint
deriving DecidableEq, Repr

/-- Python `a or b` over two `dict.get` results that are `None` or a string:
the first operand when truthy (non-`None`, non-empty), else the second. -/
def pyOrStr : Option String → Option String → Option String
  | some s, b => if s = "" then b else some s
  | none, b => b

/-- Python truthiness of a `None`-or-string value. -/
def strTruthy : Option String → Bool
  | some s => s != ""
  | none => false

/-- `OpenStackRegionService.list`: for every service of the catalog and every
endpoint of that service take `endpoint.get('region') or
endpoint.get('region_id')`, keep the truthy identifiers, and wrap each one as
a region. -/
def OpenStackRegionService.list (catalog : List OSService) :
    List OpenStackRegion :=
  (((catalog.map (fun svc => svc.endpoints.map
        (fun e => pyOrStr e.region e.region_id))).flatten).filter strTruthy).map
    (fun r => ⟨r.getD ""⟩)

/-- `OpenStackRegionService.get`: the first listed region whose id equals the
requested id, else `None`. -/
def OpenStackRegionService.get (catalog : List OSService) (region_id : String) :
    Option OpenStackRegion :=
  (OpenStackRegionService.list catalog).find? (fun r => r.id == region_id)

/-- Written from the spec's words for `RegionService.list`: per endpoint, the
`region` field if non-empty, otherwise the `region_id` field, discarding
null/empty identifiers. -/
def specEndpointRegion (e : OSEndpoint) : Option String :=
  let v := match e.region with
    | some r => if r = "" then e.region_id else some r
    | none => e.region_id
  match v with
  | some r => if r = "" then none else some r
  | none => none

/-- Written from the spec's words: the region identifiers of the whole
catalog walk, one per endpoint with a usable region, no deduplication. -/
def specRegionIds (catalog : List OSService) : List String :=
  catalog.flatMap (fun svc => svc.endpoints.filterMap specEndpointRegion)

/-- Loop body of `OpenStackSecurityGroupService.get`: one pass over the raw
group list, appending a group once when its name is in `names` and once more
when its id is in `ids`. -/
def sgFilterLoop (groups : List OSRecord) (names ids : List String) :
    List OSRecord :=
  match groups with
  | [] => []
  | sg :: rest =>
      (if names.contains sg.name then [sg] else []) ++
      (if ids.contains sg.id then [sg] else []) ++
      sgFilterLoop rest names ids

/-- `OpenStackSecurityGroupService.get`: normalise absent filters to `[]`,
fetch the full backend list, filter with the one-pass loop, and use the
filtered list only when some filter was given. -/
def OpenStackSecurityGroupService.get (groups : List OSRecord)
    (group_names group_ids : Option (List String)) :
    List OpenStackSecurityGroup :=
  let names := group_names.getD []
  let ids := group_ids.getD []
  let filtered := sgFilterLoop groups names ids
  (if !names.isEmpty || !ids.isEmpty then filtered else groups).map
    (fun sg => ⟨sg⟩)

/-- Backend contract: nova `security_groups.delete` removes every group with
the given id. -/
def novaSecurityGroupsDelete (groups : List OSRecord) (gid : String) :
    List OSRecord :=
  groups.filter (fun g => !(g.id == gid))

/-- `OpenStackSecurityGroupService.delete`: `get(group_ids=[group_id])`, if
non-empty delete the first match through its wrapper, and return `True`
unconditionally. The pair is the new backend state and the returned bool. -/
def OpenStackSecurityGroupService.delete (groups : List OSRecord)
    (group_id : String) : List OSRecord × Bool :=
  (match OpenStackSecurityGroupService.get groups none (some [group_id]) with
   | sg :: _ => novaSecurityGroupsDelete groups sg.id
   | [] => groups,
   true)

/-- Backend contract: nova `keypairs.find(name=name)` returns the first key
pair with that name or raises `NovaNotFound`. -/
def novaKeypairsFind (kps : List OSRecord) (name : String) :
    Except BackendError OSRecord :=
  match kps.find? (fun kp => kp.name == name) with
  | some kp => Except.ok kp
  | none => Except.error BackendError.novaNotFound

/-- `OpenStackKeyPairService.find`: wrap the nova result, `except
NovaNotFound` converts to `None`. -/
def OpenStackKeyPairService.find (kps : List OSRecord) (name : String) :
    Option OpenStackKeyPair :=
  match novaKeypairsFind kps name with
  | Except.ok kp => some ⟨kp⟩
  | Except.error _ => none

/-- Outcome of `OpenStackKeyPairService.create`: the backend state after the
call, the wrapped key pair returned, and whether `nova.keypairs.create` was
invoked. -/
structure KeyPairCreateResult where
  state : List OSRecord
  result : OpenStackKeyPair
  backendCreateCalled : Bool
deriving DecidableEq, Repr

/-- `OpenStackKeyPairService.create`: return the `find` result when one
exists (a wrapper is always truthy), otherwise call `nova.keypairs.create`,
which registers a new key pair record under the given name. -/
def OpenStackKeyPairService.create (kps : List OSRecord) (name : String) :
    KeyPairCreateResult :=
  match OpenStackKeyPairService.find kps name with
  | some kp => ⟨kps, kp, false⟩
  | none => ⟨kps ++ [⟨name, name⟩], ⟨⟨name, name⟩⟩, true⟩

/-- A Python argument to a service call: a wrapped resource object or a raw
value (string or `None`). Modelled from the spec's identity-resolver rule;
the wrapped variants carry their `.id`. -/
inductive ResArg where
  | placementZone (zid : String)
  | snapshotObj (sid : String)
  | str (s : String)
  | pynone
deriving DecidableEq, Repr

/-- Python `isinstance(x, PlacementZone)`. -/
def ResArg.isPlacementZone : ResArg → Bool
  | .placementZone _ => true
  | _ => false

/-- Python `isinstance(x, OpenStackSnapshot)`. -/
def ResArg.isOpenStackSnapshot : ResArg → Bool
  | .snapshotObj _ => true
  | _ => false

/-- Python truthiness of an argument: `None` and the empty string are falsy,
wrapper objects and non-empty strings are truthy. -/
def ResArg.truthy : ResArg → Bool
  | .pynone => false
  | .str s => s != ""
  | _ => true

/-- Python `.id` attribute access on an argument; only reached behind an
`isinstance` guard on a wrapped variant, where it is `some`. -/
def ResArg.attrId : ResArg → Option String
  | .placementZone z => some z
  | .snapshotObj s => some s
  | _ => none

/-- The arguments handed to cinder `volumes.create` by
`OpenStackVolumeService.create`. -/
structure CinderVolumeCreateCall where
  size : Nat
  name : String
  availability_zone : ResArg
  snapshot_id : ResArg
deriving DecidableEq, Repr

/-- `OpenStackVolumeService.create`: `zone_id = zone.id if isinstance(zone,
PlacementZone) else zone` and `snapshot_id = snapshot.id if isinstance(zone,
OpenStackSnapshot) and snapshot else snapshot` — the second guard tests
`zone`, exactly as the source does. -/
def OpenStackVolumeService.create (name : String) (size : Nat)
    (zone snapshot : ResArg) : CinderVolumeCreateCall :=
  let zone_id := if zone.isPlacementZone
    then ResArg.str (zone.attrId.getD "") else zone
  let snapshot_id := if zone.isOpenStackSnapshot && snapshot.truthy
    then ResArg.str (snapshot.attrId.getD "") else snapshot
  { size := size, name := name, availability_zone := zone_id,
    snapshot_id := snapshot_id }

/-- Source of a block device in a launch config: the `isinstance` checks of
`_to_block_device_mapping` distinguish Snapshot, Volume and MachineImage
wrappers, anything else is no source. -/
inductive BDSource where
  | snapshot (id : String)
  | volume (id : String)
  | machineImage (id : String)
  | noSource
deriving DecidableEq, Repr

/-- Modelled from the spec: one declarative block-device request of a launch
config (`BlockDeviceSpec` lives outside the embedded sources). `size` is an
optional integer; Python treats `None` and `0` as falsy. -/
structure BlockDeviceSpec where
  is_volume : Bool
  is_root : Bool
  source : BDSource
  delete_on_terminate : Option Bool
  size : Option Nat
deriving DecidableEq, Repr

/-- Python truthiness of an optional integer. -/
def sizeTruthy : Option Nat → Bool
  | some n => n != 0
  | none => false

/-- One entry of the block-device-mapping wire structure; a key absent from
the dict and a key set to `None` are both `none`. -/
structure BDMEntry where
  device_name : Option String
  destination_type : Option String
  source_type : Option String
  uuid : Option String
  delete_on_termination : Option Bool
  volume_size : Option Nat
deriving DecidableEq, Repr

/-- Loop body of `OpenStackInstanceService._to_block_device_mapping`: the
dict built for one block device of the launch config. -/
def toBDMEntry (device : BlockDeviceSpec) : BDMEntry :=
  if device.is_volume then
    { device_name := if device.is_root then some "/dev/sda" else none,
      destination_type := some "volume",
      source_type := match device.source with
        | .snapshot _ => some "snapshot"
        | .volume _ => some "volume"
        | .machineImage _ => some "image"
        | .noSource => some "blank",
      uuid := match device.source with
        | .snapshot i => some i
        | .volume i => some i
        | .machineImage i => some i
        | .noSource => none,
      delete_on_termination := device.delete_on_terminate,
      volume_size := if sizeTruthy device.size then device.size else none }
  else
    { device_name := none,
      destination_type := some "local",
      source_type := some "blank",
      uuid := none,
      delete_on_termination := some true,
      volume_size := none }

/-- `OpenStackInstanceService._to_block_device_mapping` over the launch
config's ordered block-device list. -/
def OpenStackInstanceService.toBlockDeviceMapping
    (block_devices : List BlockDeviceSpec) : List BDMEntry :=
  block_devices.map toBDMEntry

/-- Outcome of `getattr(self, service_type)` on the provider facade: the
attribute is absent (an `AttributeError`) or resolves to a value of some
truthiness. -/
inductive AttrLookup where
  | attrError
  | found (truthy : Bool)
deriving DecidableEq, Repr

/-- `BaseCloudProvider.has_service`: `True` when `getattr` yields a truthy
value, `False` when it yields a falsy value or raises `AttributeError`. -/
def BaseCloudProvider.has_service (getattrF : String → AttrLookup)
    (service_type : String) : Bool :=
  match getattrF service_type with
  | AttrLookup.found t => t
  | AttrLookup.attrError => false

/-- Helper: a `find?` that fails on the first list continues on the second. -/
theorem listFind_append_of_none {α : Type} (l1 l2 : List α) (p : α → Bool)
    (h : l1.find? p = none) : (l1 ++ l2).find? p = l2.find? p := by
  simp [List.find?_append, h]

/-- Helper: a key pair returned by `OpenStackKeyPairService.find` carries the
requested name. -/
theorem kpFind_name (kps : List OSRecord) (name : String)
    (kp : OpenStackKeyPair) (h : OpenStackKeyPairService.find kps name = some kp) :
    kp.raw.name = name := by
  unfold OpenStackKeyPairService.find novaKeypairsFind at h
  cases hf : kps.find? (fun r => r.name == name) with
  | none => rw [hf] at h; simp at h
  | some r =>
    rw [hf] at h
    simp at h
    have hr : (r.name == name) = true := by
      have hx := List.find?_some hf
      simpa using hx
    rw [← h]
    exact eq_of_beq hr

/-- C1. A get-by-id can hand back a wrapper for a different id: on a backend
whose only container is named "backup", the object-store `get` of the id "b"
returns a bucket whose id is "backup", not "b" and not absence. -/
theorem objectStoreService_get_id_mismatch :
    (OpenStackObjectStoreService.get [⟨"backup", "backup"⟩] "b").map
        OpenStackBucket.id = some "backup" ∧
    ("backup" : String) ≠ "b" := by
  constructor
  · decide
  · decide

/-- C2. In `OpenStackVolumeService.create` the snapshot resolution guard
tests `zone` instead of `snapshot`: with a plain string zone and a wrapped
snapshot with id "snap-1", the wrapper itself is handed to cinder as
`snapshot_id` instead of the string "snap-1"; a bare string snapshot id is
passed through unchanged. -/
theorem volumeService_create_snapshot_wrapper_not_resolved :
    (OpenStackVolumeService.create "vol" 1 (ResArg.str "zone-a")
        (ResArg.snapshotObj "snap-1")).snapshot_id =
      ResArg.snapshotObj "snap-1" ∧
    (OpenStackVolumeService.create "vol" 1 (ResArg.str "zone-a")
        (ResArg.snapshotObj "snap-1")).snapshot_id ≠ ResArg.str "snap-1" ∧
    (OpenStackVolumeService.create "vol" 1 (ResArg.str "zone-a")
        (ResArg.str "snap-9")).snapshot_id = ResArg.str "snap-9" := by
  refine ⟨by decide, by decide, by decide⟩

/-- C7. Block-device-mapping composition: a root, volume-backed device
sourced from the snapshot "snap-1" with `delete_on_terminate=true` yields the
entry `/dev/sda` / volume / snapshot / "snap-1" / true; and for any
volume-backed device the source type and uuid follow the source's kind, with
"blank" when no source is given. -/
theorem instanceService_bdm_source_resolution :
    OpenStackInstanceService.toBlockDeviceMapping
        [⟨true, true, BDSource.snapshot "snap-1", some true, none⟩] =
      [⟨some "/dev/sda", some "volume", some "snapshot", some "snap-1",
        some true, none⟩] ∧
    (∀ d : BlockDeviceSpec, d.is_volume = true →
      (∀ i, d.source = BDSource.snapshot i →
        (toBDMEntry d).source_type = some "snapshot" ∧
        (toBDMEntry d).uuid = some i) ∧
      (∀ i, d.source = BDSource.volume i →
        (toBDMEntry d).source_type = some "volume" ∧
        (toBDMEntry d).uuid = some i) ∧
      (∀ i, d.source = BDSource.machineImage i →
        (toBDMEntry d).source_type = some "image" ∧
        (toBDMEntry d).uuid = some i) ∧
      (d.source = BDSource.noSource →
        (toBDMEntry d).source_type = some "blank" ∧
        (toBDMEntry d).uuid = none)) := by
  constructor
  · decide
  · intro d hd
    refine ⟨?_, ?_, ?_, ?_⟩ <;>
      first
        | (intro i hs; simp [toBDMEntry, hd, hs])
        | (intro hs; simp [toBDMEntry, hd, hs])

/-- Witness for C7 at a concrete volume-sourced device. -/
theorem instanceService_bdm_source_resolution_witness :
    (toBDMEntry ⟨true, false, BDSource.volume "vol-7", none, some 4⟩).source_type
        = some "volume" ∧
    (toBDMEntry ⟨true, false, BDSource.volume "vol-7", none, some 4⟩).uuid
        = some "vol-7" :=
  (instanceService_bdm_source_resolution.2
    ⟨true, false, BDSource.volume "vol-7", none, some 4⟩ rfl).2.1 "vol-7" rfl

/-- C8. A non-volume (local/ephemeral) block device always composes to the
entry local / blank / delete-on-termination true, whatever
`delete_on_terminate` was supplied. -/
theorem instanceService_bdm_local_device (d : BlockDeviceSpec)
    (hd : d.is_volume = false) :
    toBDMEntry d =
      ⟨none, some "local", some "blank", none, some true, none⟩ := by
  simp [toBDMEntry, hd]

/-- Witness for C8 at a device that asks for `delete_on_terminate=false` and
still gets `delete_on_termination=true`. -/
theorem instanceService_bdm_local_device_witness :
    toBDMEntry ⟨false, true, BDSource.snapshot "s", some false, some 3⟩ =
      ⟨none, some "local", some "blank", none, some true, none⟩ :=
  instanceService_bdm_local_device
    ⟨false, true, BDSource.snapshot "s", some false, some 3⟩ rfl

/-- C10. The capability probe returns true exactly when `getattr` resolves
the service-type attribute to a truthy value, and an absent attribute gives
false rather than an error. -/
theorem baseCloudProvider_has_service_probe :
    ∀ (getattrF : String → AttrLookup) (service_type : String),
      (BaseCloudProvider.has_service getattrF service_type = true ↔
        getattrF service_type = AttrLookup.found true) ∧
      (getattrF service_type = AttrLookup.attrError →
        BaseCloudProvider.has_service getattrF service_type = false) := by
  intro f st
  constructor
  · unfold BaseCloudProvider.has_service
    cases h : f st with
    | attrError => simp
    | found t => cases t <;> simp
  · intro h
    unfold BaseCloudProvider.has_service
    rw [h]

/-- Witness for C10 on a facade with no attributes at all. -/
theorem baseCloudProvider_has_service_probe_witness :
    BaseCloudProvider.has_service (fun _ => AttrLookup.attrError) "compute"
      = false :=
  (baseCloudProvider_has_service_probe (fun _ => AttrLookup.attrError)
    "compute").2 rfl

/-- C3. The image, volume, snapshot and instance gets return absence when no
backend record has the requested id, and any backend error other than the
caught not-found class propagates unchanged. -/
theorem resourceService_get_fails_soft :
    (∀ (recs : List OSRecord) (i : String), (∀ r ∈ recs, r.id ≠ i) →
      OpenStackImageService.get (novaImagesGet recs i) = Except.ok none ∧
      OpenStackVolumeService.get (cinderVolumesGet recs i) = Except.ok none ∧
      OpenStackSnapshotService.get (cinderSnapshotsGet recs i) =
        Except.ok none ∧
      OpenStackInstanceService.get (novaServersGet recs i) = Except.ok none) ∧
    (∀ e, e ≠ BackendError.novaNotFound →
      OpenStackImageService.get (Except.error e) = Except.error e ∧
      OpenStackInstanceService.get (Except.error e) = Except.error e) ∧
    (∀ e, e ≠ BackendError.cinderNotFound →
      OpenStackVolumeService.get (Except.error e) = Except.error e ∧
      OpenStackSnapshotService.get (Except.error e) = Except.error e) := by
  refine ⟨?_, ?_, ?_⟩
  · intro recs i h
    have hf : recs.find? (fun r => r.id == i) = none := by
      rw [List.find?_eq_none]
      intro r hr
      simpa using h r hr
    refine ⟨?_, ?_, ?_, ?_⟩ <;>
      simp [novaImagesGet, cinderVolumesGet, cinderSnapshotsGet,
        novaServersGet, hf, OpenStackImageService.get,
        OpenStackVolumeService.get, OpenStackSnapshotService.get,
        OpenStackInstanceService.get]
  · intro e he
    cases e <;>
      simp_all [OpenStackImageService.get, OpenStackInstanceService.get]
  · intro e he
    cases e <;>
      simp_all [OpenStackVolumeService.get, OpenStackSnapshotService.get]

/-- Witness for C3: an empty backend yields absence, and a non-not-found
error propagates. -/
theorem resourceService_get_fails_soft_witness :
    OpenStackImageService.get (novaImagesGet [] "i-1") = Except.ok none ∧
    OpenStackVolumeService.get (Except.error (BackendError.other "boom")) =
      Except.error (BackendError.other "boom") :=
  ⟨(resourceService_get_fails_soft.1 [] "i-1"
      (fun r hr => absurd hr (List.not_mem_nil r))).1,
   (resourceService_get_fails_soft.2.2 (BackendError.other "boom")
      (by simp)).1⟩

/-- Helper: the one-pass filter with no name filter and a single id filter is
a plain filter on that id. -/
theorem sgFilterLoop_single_id (groups : List OSRecord) (gid : String) :
    sgFilterLoop groups [] [gid] =
      groups.filter (fun g => g.id == gid) := by
  induction groups with
  | nil => rfl
  | cons sg rest ih =>
    by_cases h : sg.id = gid <;>
      simp [sgFilterLoop, List.filter_cons, h, ih, beq_iff_eq]

/-- Helper: `get(group_ids=[gid])` returns exactly the wrapped groups whose
id is `gid`. -/
theorem sgGet_single_id (groups : List OSRecord) (gid : String) :
    OpenStackSecurityGroupService.get groups none (some [gid]) =
      (groups.filter (fun g => g.id == gid)).map (fun g => ⟨g⟩) := by
  unfold OpenStackSecurityGroupService.get
  simp [sgFilterLoop_single_id]

/-- C4. Security-group delete reports success whether or not a group with
the id existed, twice in a row as well, and afterwards no group with that id
remains on the backend. -/
theorem securityGroupService_delete_idempotent :
    ∀ (groups : List OSRecord) (gid : String),
      (OpenStackSecurityGroupService.delete groups gid).2 = true ∧
      (OpenStackSecurityGroupService.delete
          (OpenStackSecurityGroupService.delete groups gid).1 gid).2 = true ∧
      ((OpenStackSecurityGroupService.delete groups gid).1.filter
          (fun g => g.id == gid)) = [] := by
  intro groups gid
  refine ⟨rfl, rfl, ?_⟩
  show (OpenStackSecurityGroupService.delete groups gid).1.filter
      (fun g => g.id == gid) = []
  unfold OpenStackSecurityGroupService.delete
  rw [sgGet_single_id]
  cases hfl : groups.filter (fun g => g.id == gid) with
  | nil => simpa using hfl
  | cons a tl =>
    have ha : (a.id == gid) = true := by
      have hmem : a ∈ groups.filter (fun g => g.id == gid) := by
        rw [hfl]; exact List.mem_cons_self a tl
      exact (List.mem_filter.mp hmem).2
    have hgid : a.id = gid := eq_of_beq ha
    simp only [List.map_cons]
    show (novaSecurityGroupsDelete groups
        (OpenStackSecurityGroup.id ⟨a⟩)).filter (fun g => g.id == gid) = []
    unfold novaSecurityGroupsDelete OpenStackSecurityGroup.id
    rw [List.filter_filter]
    rw [List.filter_eq_nil_iff]
    intro g _
    simp [hgid]

/-- Helper: multiplicity of a record in the one-pass OR filter — once per
matching filter dimension, per occurrence in the backend list. -/
theorem sgFilterLoop_count (groups : List OSRecord) (names ids : List String)
    (g : OSRecord) :
    (sgFilterLoop groups names ids).count g =
      groups.count g *
        ((if names.contains g.name then 1 else 0) +
         (if ids.contains g.id then 1 else 0)) := by
  induction groups with
  | nil => simp [sgFilterLoop]
  | cons sg rest ih =>
    by_cases hg : sg = g
    · subst hg
      by_cases h1 : sg.name ∈ names <;>
        by_cases h2 : sg.id ∈ ids <;>
          simp [sgFilterLoop, List.count_append, List.count_cons, h1, h2,
            ih] <;> ring
    · have hbe : (sg == g) = false := by simp [hg]
      by_cases h1 : sg.name ∈ names <;>
        by_cases h2 : sg.id ∈ ids <;>
          simp [sgFilterLoop, List.count_append, List.count_cons, h1, h2, ih,
            hbe, hg]

/-- C5. Security-group get with empty or absent filters returns all groups;
with filters it applies name and id filters independently (logical OR) with
one inclusion per match path and no deduplication, so a group matching both
filters is counted twice. -/
theorem securityGroupService_get_or_no_dedup :
    (∀ (groups : List OSRecord) (group_names group_ids : Option (List String)),
      (group_names.getD []).isEmpty = true →
      (group_ids.getD []).isEmpty = true →
      OpenStackSecurityGroupService.get groups group_names group_ids =
        groups.map (fun g => ⟨g⟩)) ∧
    (∀ (groups : List OSRecord) (names ids : List String) (g : OSRecord),
      (names.isEmpty && ids.isEmpty) = false →
      (OpenStackSecurityGroupService.get groups (some names)
          (some ids)).count ⟨g⟩ =
        groups.count g *
          ((if names.contains g.name then 1 else 0) +
           (if ids.contains g.id then 1 else 0))) := by
  constructor
  · intro groups gn gi h1 h2
    unfold OpenStackSecurityGroupService.get
    simp [h1, h2]
  · intro groups names ids g hne
    unfold OpenStackSecurityGroupService.get
    have hcond : (!names.isEmpty || !ids.isEmpty) = true := by
      cases hn : names.isEmpty <;> cases hi : ids.isEmpty <;> simp_all
    have hinj : Function.Injective
        (fun g : OSRecord => (⟨g⟩ : OpenStackSecurityGroup)) :=
      fun a b h => congrArg OpenStackSecurityGroup.raw h
    simp only [Option.getD_some, hcond, if_true]
    rw [List.count_map_of_injective _ _ hinj, sgFilterLoop_count]

/-- Witness for C5: the group named "web" with id "sg-9" appears twice when
it matches both the name filter and the id filter. -/
theorem securityGroupService_get_or_no_dedup_witness :
    (OpenStackSecurityGroupService.get [⟨"sg-9", "web"⟩] (some ["web"])
        (some ["sg-9"])).count ⟨⟨"sg-9", "web"⟩⟩ = 2 := by
  have h := securityGroupService_get_or_no_dedup.2 [⟨"sg-9", "web"⟩] ["web"]
    ["sg-9"] ⟨"sg-9", "web"⟩ (by decide)
  rw [h]
  decide

/-- Helper: the spec's per-endpoint region rule agrees pointwise with the
code's `region or region_id` expression followed by the truthiness filter. -/
theorem specEndpointRegion_eq (e : OSEndpoint) :
    specEndpointRegion e =
      if strTruthy (pyOrStr e.region e.region_id) = true
      then some ((pyOrStr e.region e.region_id).getD "") else none := by
  rcases e with ⟨r, rid⟩
  cases r with
  | none =>
    cases rid with
    | none => simp [specEndpointRegion, pyOrStr, strTruthy]
    | some s =>
      by_cases h : s = "" <;>
        simp [specEndpointRegion, pyOrStr, strTruthy, h]
  | some s =>
    by_cases h : s = ""
    · cases rid with
      | none => simp [specEndpointRegion, pyOrStr, strTruthy, h]
      | some s2 =>
        by_cases h2 : s2 = "" <;>
          simp [specEndpointRegion, pyOrStr, strTruthy, h, h2]
    · simp [specEndpointRegion, pyOrStr, strTruthy, h]

/-- Helper: over one endpoint list, filtering the `region or region_id`
values by truthiness and unwrapping them equals the spec's filterMap. -/
theorem endpointRegions_eq (es : List OSEndpoint) :
    ((es.map (fun e => pyOrStr e.region e.region_id)).filter strTruthy).map
        (fun r => r.getD "") = es.filterMap specEndpointRegion := by
  induction es with
  | nil => rfl
  | cons e rest ih =>
    simp only [List.map_cons, List.filter_cons, List.filterMap_cons]
    rw [specEndpointRegion_eq e]
    by_cases h : strTruthy (pyOrStr e.region e.region_id) = true
    · simp [h, ih]
    · simp [h, ih]

/-- Helper: the region list's ids are exactly the spec's catalog walk. -/
theorem regionList_map_id_eq_spec (catalog : List OSService) :
    (OpenStackRegionService.list catalog).map OpenStackRegion.id =
      specRegionIds catalog := by
  induction catalog with
  | nil => rfl
  | cons svc rest ih =>
    have hA := endpointRegions_eq svc.endpoints
    unfold OpenStackRegionService.list specRegionIds
    unfold OpenStackRegionService.list specRegionIds at ih
    simp only [List.map_cons, List.flatten_cons, List.flatMap_cons,
      List.filter_append, List.map_append, List.map_map] at ih ⊢
    have hcomp : (OpenStackRegion.id ∘ fun r : Option String =>
        OpenStackRegion.mk (r.getD "")) =
          fun r : Option String => r.getD "" := by
      funext r
      rfl
    rw [hcomp] at ih ⊢
    rw [hA, ih]

/-- C6. Region listing walks every endpoint of every catalog service, takes
the `region` field when non-empty and otherwise `region_id`, discards
null/empty identifiers, and does not deduplicate: two services with the same
endpoint region yield two identical Region entries. -/
theorem regionService_list_catalog_walk :
    (∀ catalog, (OpenStackRegionService.list catalog).map OpenStackRegion.id =
      specRegionIds catalog) ∧
    OpenStackRegionService.list
        [⟨[⟨some "RegionOne", none⟩]⟩, ⟨[⟨some "RegionOne", none⟩]⟩] =
      [⟨"RegionOne"⟩, ⟨"RegionOne"⟩] :=
  ⟨regionList_map_id_eq_spec, by decide⟩

/-- C9. Key-pair create returns the existing key pair without calling the
backend creation when the name is taken, creates through the backend only
for a fresh name, and a second create of the same name returns a key pair of
that name with no backend creation. -/
theorem keyPairService_create_idempotent :
    ∀ (kps : List OSRecord) (name : String),
      (OpenStackKeyPairService.create kps name).result.name = name ∧
      (∀ kp, OpenStackKeyPairService.find kps name = some kp →
        (OpenStackKeyPairService.create kps name).result = kp ∧
        (OpenStackKeyPairService.create kps name).backendCreateCalled =
          false ∧
        (OpenStackKeyPairService.create kps name).state = kps) ∧
      (OpenStackKeyPairService.find kps name = none →
        (OpenStackKeyPairService.create kps name).backendCreateCalled =
          true) ∧
      ((OpenStackKeyPairService.create
          (OpenStackKeyPairService.create kps name).state name).result.name =
        name ∧
       (OpenStackKeyPairService.create
          (OpenStackKeyPairService.create kps
            name).state name).backendCreateCalled = false) := by
  intro kps name
  cases hf : OpenStackKeyPairService.find kps name with
  | some kp =>
    have hname : kp.raw.name = name := kpFind_name kps name kp hf
    refine ⟨?_, ?_, ?_, ?_⟩
    · simp [OpenStackKeyPairService.create, hf, OpenStackKeyPair.name, hname]
    · intro kp2 hf2
      obtain rfl : kp = kp2 := by injection hf2
      simp [OpenStackKeyPairService.create, hf]
    · intro hf2
      simp at hf2
    · simp [OpenStackKeyPairService.create, hf, OpenStackKeyPair.name, hname]
  | none =>
    have hnone : kps.find? (fun r => r.name == name) = none := by
      unfold OpenStackKeyPairService.find novaKeypairsFind at hf
      cases hx : kps.find? (fun r => r.name == name) with
      | none => rfl
      | some r => rw [hx] at hf; simp at hf
    have hfind2 : OpenStackKeyPairService.find (kps ++ [⟨name, name⟩]) name =
        some ⟨⟨name, name⟩⟩ := by
      unfold OpenStackKeyPairService.find novaKeypairsFind
      rw [listFind_append_of_none _ _ _ hnone]
      simp
    refine ⟨?_, ?_, ?_, ?_⟩
    · simp [OpenStackKeyPairService.create, hf, OpenStackKeyPair.name]
    · intro kp2 hf2
      simp at hf2
    · intro _
      simp [OpenStackKeyPairService.create, hf]
    · simp [OpenStackKeyPairService.create, hf, hfind2, OpenStackKeyPair.name]

/-- Witness for C9: creating "kp1" on an empty backend calls the backend
creation, and a second create of "kp1" does not. -/
theorem keyPairService_create_idempotent_witness :
    (OpenStackKeyPairService.create [] "kp1").backendCreateCalled = true ∧
    (OpenStackKeyPairService.create
        (OpenStackKeyPairService.create []
          "kp1").state "kp1").backendCreateCalled = false :=
  ⟨(keyPairService_create_idempotent [] "kp1").2.2.1 rfl,
   (keyPairService_create_idempotent [] "kp1").2.2.2.2⟩
